import Mathlib

/-!
Shallow embedding of the LQuiD.LiQpaiD Trove/Pool accounting core
(src/packages/backend/assembly/main.ts, model.ts, and the stability-pool
variant in src/unnamed/part_005), with theorems checking the
natural-language specification against it.

Conventions of the embedding:
* `u128` values are `Nat`s; the as-bignum `u128` operations wrap modulo
   2^128 (`uadd`, `usub`, `umul`) and divide truncating (`udiv`).
  Division by zero is modelled as Lean's `Nat` division (result 0); no
  verified path below reaches a zero divisor.
* `PersistentMap` is a function into `Option`; `PersistentMap.getSome`
  on an absent key aborts the NEAR transaction, modelled as an
  `Except.error` carrying the abort message and the state at the abort.
* `assert(cond, msg)` is an `Except.error (msg, currentState)`; the error
  value keeps the state reached when the abort fires, so that theorems can
  talk about mutations performed before a failed validation.  Public
  entry points are additionally wrapped with the host's transactional
  rollback (`rollback`), which discards the partial state.
* AssemblyScript locals of class type declared without an initializer
  (`var V: LiquidationValues;`) are modelled as default-initialized
  records (all fields zero), matching how the source uses them.
-/

namespace LiqpaiD

/-! ### 128-bit wrapping arithmetic (as-bignum `u128`) -/

def U128 : Nat := 2 ^ 128

/-- `u128.Max` -/
def u128Max : Nat := U128 - 1

/-- `u128.add`, wrapping. -/
def uadd (a b : Nat) : Nat := (a + b) % U128

/-- `u128.sub`, two's-complement wrapping (callers pass values `< U128`). -/
def usub (a b : Nat) : Nat := (a + U128 - b % U128) % U128

/-- `u128.mul`, wrapping. -/
def umul (a b : Nat) : Nat := (a * b) % U128

/-- `u128.div`, truncating. -/
def udiv (a b : Nat) : Nat := a / b

/-- model.ts: `PCT = u128.from(1000000000000000000)` — 100%, 1e18. -/
def PCT : Nat := 1000000000000000000

/-- model.ts: `MCR`, 110%. -/
def MCR : Nat := 1100000000000000000

/-- model.ts: `CCR`, 150%. -/
def CCR : Nat := 1500000000000000000

/-- model.ts lines 644-647:
```
export function min( a: u128, b: u128 ): u128 {
  if ( b > a ) return b;
  else return a;
}
``` -/
def min (a b : Nat) : Nat := if b > a then b else a

/-- model.ts lines 649-662 (`_computeICR`). -/
def _computeICR (_coll _debt _price : Nat) : Nat :=
  if _coll = 0 ∧ _debt = 0 then 1
  else if _debt > 0 then udiv (umul _coll _price) _debt
  else if _debt = 0 then u128Max
  else 0

/-- model.ts `LiquidationValues`. -/
structure LiquidationValues where
  debtToOffset : Nat
  collToSendToSP : Nat
  debtToRedistribute : Nat
  collToRedistribute : Nat
deriving DecidableEq

/-- Default-initialized `var V: LiquidationValues` (all fields zero). -/
def LiquidationValues.init : LiquidationValues :=
  { debtToOffset := 0, collToSendToSP := 0, debtToRedistribute := 0, collToRedistribute := 0 }

/-- main.ts lines 396-417 (`_getLiquidationVals`). -/
def _getLiquidationVals (_debt _coll _stableLQD : Nat) : LiquidationValues :=
  if _stableLQD > 0 then
    let dto := min _debt _stableLQD
    let csp := udiv (umul _coll dto) _debt
    { debtToOffset := dto
      collToSendToSP := csp
      debtToRedistribute := usub _debt dto
      collToRedistribute := usub _coll csp }
  else
    { debtToOffset := 0
      collToSendToSP := 0
      debtToRedistribute := _debt
      collToRedistribute := _coll }

/-! ### Data model (model.ts) -/

abbrev AccountId := String

/-- model.ts `Status`. -/
inductive Status where
  | nonExistent
  | active
  | closed
deriving DecidableEq

/-- Numeric u16 encoding of `Status` used by `getCDPStatus`/`setCDPStatus`. -/
def Status.toNum : Status → Nat
  | .nonExistent => 0
  | .active => 1
  | .closed => 2

/-- model.ts `CDP`. -/
structure CDP where
  debt : Nat
  coll : Nat
  stake : Nat
  status : Status
  arrayIndex : Nat
deriving DecidableEq

/-- model.ts `new CDP()`. -/
def CDP.new : CDP :=
  { debt := 0, coll := 0, stake := 0, status := .nonExistent, arrayIndex := 0 }

/-- model.ts `RewardSnapshot`. -/
structure RewardSnapshot where
  coll : Nat
  debt : Nat
deriving DecidableEq

/-- model.ts `Pool`: collateral on hand (`NEAR`) and debt-token liability (`LQD`). -/
structure Pool where
  NEAR : Nat
  LQD : Nat
deriving DecidableEq

/-- The whole mutable contract state: the persistent collections
(`CDPs`, `CDPOwners`, `rewardSnapshots`, `stableLQDeposits`), the
`TroveMgr` fields (`totalStakes`, `totalFees`), the two `PoolMgr` pools
of model.ts, and the stored oracle price (`storage "price"`). -/
structure State where
  CDPs : AccountId → Option CDP
  CDPOwners : List AccountId
  rewardSnapshots : AccountId → Option RewardSnapshot
  stableLQDeposits : AccountId → Option Nat
  totalStakes : Nat
  totalFees : Nat
  activePool : Pool
  stablePool : Pool
  price : Nat

/-- Stateful computations; an abort (`assert` failure or
`PersistentMap.getSome` on a missing key) carries the abort message and
the state reached at the abort. -/
abbrev ERes (α : Type) := Except (String × State) α

/-- Error messages (errors.ts, plus the NEAR runtime message for
`getSome` on a missing key). -/
def ERR_USER_EXISTS : String := "CDP already exists for this user, use adjustLoan"

def ERR_CDP_INACTIVE : String := "Trove does not exist or is closed"

def ERR_IN_RECOVERY : String := "Operation not permitted during Recovery Mode"

def ERR_ICR_BELOW_MCR : String := "An operation that would result in ICR < MCR is not permitted"

def ERR_CCR_BELOW_TCR : String := "An operation that would result in TCR < CCR is not permitted"

def ERR_AMT_BELOW_ZERO : String := "Amount must be larger than 0"

def ERR_REPAY_OVER : String := "Amount repaid must not be larger than the CDP's debt"

def ERR_WITHDRAW_TOO_MUCH : String := "Cannot withdraw more than deposited"

def ERR_NEW_ICR_UNDER_TCR : String := "In recovery mode the new ICR must exceed the TCR"

def ERR_REDEEM_OVER : String := "Requested redemption amount not fully satisfied"

def ERR_KEY_NOT_FOUND : String := "key not found"

/-- `CDPs.set(user, cdp)`. -/
def setCDP (s : State) (u : AccountId) (c : CDP) : State :=
  { s with CDPs := fun a => if a = u then some c else s.CDPs a }

/-- `rewardSnapshots.set(user, shot)`. -/
def setSnapshot (s : State) (u : AccountId) (r : RewardSnapshot) : State :=
  { s with rewardSnapshots := fun a => if a = u then some r else s.rewardSnapshots a }

/-- `stableLQDeposits.set(user, amount)`. -/
def setDeposit (s : State) (u : AccountId) (d : Nat) : State :=
  { s with stableLQDeposits := fun a => if a = u then some d else s.stableLQDeposits a }

/-- `PersistentVector.swap_remove(i)`: overwrite slot `i` with the last
element and drop the last slot. -/
def swapRemove (l : List AccountId) (i : Nat) : List AccountId :=
  match l.getLast? with
  | none => l
  | some last => (l.set i last).dropLast

namespace TroveMgr

/-- model.ts lines 312-319 (`getCDPStatus`): the numeric status, 0 when
no record exists. -/
def getCDPStatus (s : State) (u : AccountId) : Nat :=
  match s.CDPs u with
  | some cdp => cdp.status.toNum
  | none => 0

/-- model.ts lines 320-334 (`setCDPStatus`): creates a fresh record when
none exists, then stores the decoded status. -/
def setCDPStatus (s : State) (u : AccountId) (n : Nat) : State :=
  let cdp := match s.CDPs u with
    | some c => c
    | none => CDP.new
  let cdp :=
    if n = 0 then { cdp with status := .nonExistent }
    else if n = 1 then { cdp with status := .active }
    else if n = 2 then { cdp with status := .closed }
    else cdp
  setCDP s u cdp

/-- model.ts lines 302-310 (`addCDPOwnerToArray`): asserts that no CDP
record exists for the account, then appends the owner and stores a fresh
record. -/
def addCDPOwnerToArray (s : State) (u : AccountId) : ERes (State × Nat) :=
  let index := s.CDPOwners.length
  if (s.CDPs u).isSome then .error (ERR_USER_EXISTS, s)
  else
    let s1 : State := { s with CDPOwners := s.CDPOwners ++ [u] }
    .ok (setCDP s1 u { CDP.new with arrayIndex := index }, index)

/-- model.ts lines 336-342 (`increaseCDPColl`). -/
def increaseCDPColl (s : State) (u : AccountId) (amt : Nat) : ERes (State × Nat) :=
  match s.CDPs u with
  | none => .error (ERR_KEY_NOT_FOUND, s)
  | some cdp =>
    let newColl := uadd cdp.coll amt
    .ok (setCDP s u { cdp with coll := newColl }, newColl)

/-- model.ts lines 343-349 (`decreaseCDPColl`). -/
def decreaseCDPColl (s : State) (u : AccountId) (amt : Nat) : ERes (State × Nat) :=
  match s.CDPs u with
  | none => .error (ERR_KEY_NOT_FOUND, s)
  | some cdp =>
    let newColl := usub cdp.coll amt
    .ok (setCDP s u { cdp with coll := newColl }, newColl)

/-- model.ts lines 350-366 (`mintDebt`): adds `amount + fee` to the
Trove's debt and accrues the fee to `totalFees` (the external token mint
is a collaborator call, not accounting state). -/
def mintDebt (s : State) (u : AccountId) (amt fee : Nat) : ERes (State × Nat) :=
  let debtPlusFee := uadd amt fee
  let s1 : State := { s with totalFees := uadd s.totalFees fee }
  match s1.CDPs u with
  | none => .error (ERR_KEY_NOT_FOUND, s1)
  | some cdp =>
    let newDebt := uadd cdp.debt debtPlusFee
    .ok (setCDP s1 u { cdp with debt := newDebt }, newDebt)

/-- model.ts lines 368-375 (`burnDebt`): asserts the strict bound
`amount < debt` before subtracting. -/
def burnDebt (s : State) (u : AccountId) (amt : Nat) : ERes (State × Nat) :=
  match s.CDPs u with
  | none => .error (ERR_KEY_NOT_FOUND, s)
  | some cdp =>
    if ¬ amt < cdp.debt then .error (ERR_REPAY_OVER, s)
    else
      let newDebt := usub cdp.debt amt
      .ok (setCDP s u { cdp with debt := newDebt }, newDebt)

/-- model.ts lines 377-392 (`updateStakeAndTotalStakes`).  The source
never writes the CDP record back (`CDPs.set` is missing), so only
`totalStakes` changes; the recomputed stake is returned but lost. -/
def updateStakeAndTotalStakes (s : State) (u : AccountId) (totalCollateral : Nat) :
    ERes (State × Nat) :=
  match s.CDPs u with
  | none => .error (ERR_KEY_NOT_FOUND, s)
  | some cdp =>
    let newStake :=
      if totalCollateral > 0 then udiv (umul cdp.coll s.totalStakes) totalCollateral
      else cdp.coll
    let oldStake := cdp.stake
    .ok ({ s with totalStakes := uadd (usub s.totalStakes oldStake) newStake }, newStake)

/-- model.ts lines 394-407 (`closeCDP`): zero the record, clear the
reward snapshot (`getSome` aborts when absent), drop the stake from
`totalStakes`, and swap-remove the owner. -/
def closeCDP (s : State) (u : AccountId) : ERes State :=
  match s.CDPs u with
  | none => .error (ERR_KEY_NOT_FOUND, s)
  | some cdp =>
    match s.rewardSnapshots u with
    | none => .error (ERR_KEY_NOT_FOUND, s)
    | some _ =>
      let s1 := setSnapshot s u { coll := 0, debt := 0 }
      let s2 : State := { s1 with totalStakes := usub s1.totalStakes cdp.stake }
      let s3 := setCDP s2 u { cdp with status := .closed, coll := 0, debt := 0, stake := 0 }
      .ok { s3 with CDPOwners := swapRemove s3.CDPOwners cdp.arrayIndex }

/-- model.ts lines 437-442 (`removeStake`). -/
def removeStake (s : State) (u : AccountId) : ERes State :=
  match s.CDPs u with
  | none => .error (ERR_KEY_NOT_FOUND, s)
  | some cdp =>
    let s1 : State := { s with totalStakes := usub s.totalStakes cdp.stake }
    .ok (setCDP s1 u { cdp with stake := 0 })

/-- model.ts lines 444-446 (`getCurrentICR`); `getSome` aborts when the
record is missing. -/
def getCurrentICR (s : State) (u : AccountId) (price : Nat) : ERes Nat :=
  match s.CDPs u with
  | none => .error (ERR_KEY_NOT_FOUND, s)
  | some cdp => .ok (_computeICR cdp.coll cdp.debt price)

/-- model.ts lines 409-435 (`redeemCollateralFromCDP`): the returned
string "debt,coll" is modelled as the pair of the CDP's post-redemption
debt and collateral. -/
def redeemCollateralFromCDP (s : State) (totalColl totalDebt maxLQD price : Nat)
    (u : AccountId) : ERes (State × Nat × Nat) :=
  match s.CDPs u with
  | none => .error (ERR_KEY_NOT_FOUND, s)
  | some cdp =>
    let TCRwith := _computeICR totalColl totalDebt price
    let totalCollWithout := usub totalColl cdp.coll
    let totalDebtWithout := usub totalDebt cdp.debt
    let TCRwithout := _computeICR totalCollWithout totalDebtWithout price
    let TCRdelta := usub TCRwith TCRwithout
    let TCRshare := udiv TCRdelta TCRwith
    let debtToRedeem := min (umul maxLQD TCRshare) cdp.debt
    let debtShare := udiv debtToRedeem cdp.debt
    let collToRedeem := umul debtShare cdp.coll
    let newDebt := usub cdp.debt debtToRedeem
    let newColl := usub cdp.coll collToRedeem
    if newDebt = 0 ∧ newColl = 0 then
      (closeCDP (setCDP s u { cdp with debt := newDebt, coll := newColl }) u).map
        fun s' => (s', newDebt, newColl)
    else
      .ok (setCDP s u { cdp with debt := newDebt, coll := newColl }, newDebt, newColl)

end TroveMgr

namespace PoolMgr

/-- model.ts line 511-513 (`getStableLQD`). -/
def getStableLQD (s : State) : Nat := s.stablePool.LQD

/-- model.ts line 514-516 (`getActiveLQD`). -/
def getActiveLQD (s : State) : Nat := s.activePool.LQD

/-- model.ts line 517-519 (`getTotalLQD`). -/
def getTotalLQD (s : State) : Nat := uadd (getActiveLQD s) (getStableLQD s)

/-- model.ts line 523-525 (`getActiveNEAR`). -/
def getActiveNEAR (s : State) : Nat := s.activePool.NEAR

/-- model.ts lines 526-528 (`getTotalNEAR`):
`u128.add(this.activePool.getNEAR(), this.getActiveNEAR())` — the active
pool's collateral added to itself; this `PoolMgr` has no default pool and
the stability pool's collateral is not consulted. -/
def getTotalNEAR (s : State) : Nat := uadd s.activePool.NEAR (getActiveNEAR s)

/-- model.ts lines 574-579 (`withdrawLQD`): mints to the user (external)
and increases the Active Pool debt. -/
def withdrawLQD (s : State) (amt : Nat) : State :=
  { s with activePool := { s.activePool with LQD := uadd s.activePool.LQD amt } }

/-- model.ts lines 580-585 (`repayLQD`): burns from the user (external)
and decreases the Active Pool debt. -/
def repayLQD (s : State) (amt : Nat) : State :=
  { s with activePool := { s.activePool with LQD := usub s.activePool.LQD amt } }

/-- model.ts lines 586-588 (`addColl`): Active Pool receives collateral. -/
def addColl (s : State) (amt : Nat) : State :=
  { s with activePool := { s.activePool with NEAR := uadd s.activePool.NEAR amt } }

/-- model.ts lines 590-592 (`withdrawColl` via `Pool.sendNEAR`): Active
Pool collateral decreases; the payment transfer is external. -/
def withdrawColl (s : State) (amt : Nat) : State :=
  { s with activePool := { s.activePool with NEAR := usub s.activePool.NEAR amt } }

/-- model.ts lines 546-561 (`depositStableLQD`). -/
def depositStableLQD (s : State) (u : AccountId) (amt : Nat) : State :=
  let s1 : State := { s with stablePool := { s.stablePool with LQD := uadd s.stablePool.LQD amt } }
  let deposit := match s1.stableLQDeposits u with
    | some d => uadd d amt
    | none => amt
  setDeposit s1 u deposit

/-- model.ts lines 562-573 (`withdrawStableLQD`): the Stability Pool debt
balance is decreased BEFORE the depositor's balance is read and the
sufficiency assert fires. -/
def withdrawStableLQD (s : State) (u : AccountId) (amt : Nat) : ERes State :=
  let s1 : State := { s with stablePool := { s.stablePool with LQD := usub s.stablePool.LQD amt } }
  match s1.stableLQDeposits u with
  | none => .error (ERR_KEY_NOT_FOUND, s1)
  | some deposit =>
    if ¬ deposit ≥ amt then .error (ERR_WITHDRAW_TOO_MUCH, s1)
    else .ok (setDeposit s1 u (usub deposit amt))

/-- model.ts lines 594-603 (`redeemCollateral` on `PoolMgr`): decreases
the Active Pool debt twice (as written) and sends the collateral. -/
def redeemCollateral (s : State) (lqd near : Nat) : State :=
  let s1 : State := { s with activePool := { s.activePool with LQD := usub s.activePool.LQD lqd } }
  let s2 : State := { s1 with activePool := { s1.activePool with NEAR := usub s1.activePool.NEAR near } }
  { s2 with activePool := { s2.activePool with LQD := usub s2.activePool.LQD lqd } }

/-- model.ts lines 619-631 (`moveOffsetCollAndDebt`). -/
def moveOffsetCollAndDebt (s : State) (collToAdd debtToOffset : Nat) : State :=
  let s1 : State := { s with activePool := { s.activePool with LQD := usub s.activePool.LQD debtToOffset } }
  let s2 : State := { s1 with stablePool := { s1.stablePool with LQD := usub s1.stablePool.LQD debtToOffset } }
  let s3 : State := { s2 with activePool := { s2.activePool with NEAR := usub s2.activePool.NEAR collToAdd } }
  { s3 with stablePool := { s3.stablePool with NEAR := uadd s3.stablePool.NEAR collToAdd } }

/-- model.ts lines 613-618 (`offset`): a no-op when the Stability Pool
holds no debt token or there is nothing to offset. -/
def offset (s : State) (debtToOffset collToAdd : Nat) : State :=
  if getStableLQD s = 0 ∨ debtToOffset = 0 then s
  else moveOffsetCollAndDebt s collToAdd debtToOffset

end PoolMgr

/-! ### main.ts helpers and public entry points -/

/-- main.ts lines 632-639 (`_getTCR`): TCR from the Active Pool balances
and the stored price. -/
def _getTCR (s : State) : Nat :=
  _computeICR (PoolMgr.getActiveNEAR s) (PoolMgr.getActiveLQD s) s.price

/-- main.ts lines 641-650 (`_checkRecoveryMode`). -/
def _checkRecoveryMode (s : State) : Bool :=
  decide (_getTCR s < CCR)

/-- main.ts lines 611-629 (`_getNewTCRFromTroveChange`); the `i32` flags
are 0 for false, anything else for true. -/
def _getNewTCRFromTroveChange (s : State) (collChange isCollIncrease debtChange isDebtIncrease : Nat) : Nat :=
  let totalColl := PoolMgr.getTotalNEAR s
  let totalDebt := PoolMgr.getTotalLQD s
  let totalColl := if isCollIncrease = 0 then usub totalColl collChange else uadd totalColl collChange
  let totalDebt := if isDebtIncrease = 0 then usub totalDebt debtChange else uadd totalDebt debtChange
  _computeICR totalColl totalDebt s.price

/-- main.ts lines 549-557 (`_calculateFee`). -/
def _calculateFee (s : State) (amt : Nat) : Nat :=
  if PoolMgr.getTotalLQD s > 1 then umul amt (udiv amt (PoolMgr.getTotalLQD s))
  else 0

/-- The mutation sequence of main.ts lines 116-126 (the body of
`openTrove` after its assertions): `setStatus(usr, 1)` (which creates
the CDP record), `increaseCollat`, `mintDebt`, `addOwnerToArray` (which
asserts that no CDP record exists for `usr`), the pool moves, and the
stake update. -/
def openTroveMutations (s : State) (usr : AccountId) (amt val fee : Nat) : ERes State :=
  let s1 := TroveMgr.setCDPStatus s usr 1
  match TroveMgr.increaseCDPColl s1 usr val with
  | .error e => .error e
  | .ok (s2, _) =>
    match TroveMgr.mintDebt s2 usr amt fee with
    | .error e => .error e
    | .ok (s3, _) =>
      match TroveMgr.addCDPOwnerToArray s3 usr with
      | .error e => .error e
      | .ok (s4, _) =>
        let s5 := PoolMgr.addColl s4 val
        let s6 := PoolMgr.withdrawLQD s5 amt
        match TroveMgr.updateStakeAndTotalStakes s6 usr (PoolMgr.getTotalNEAR s6) with
        | .error e => .error e
        | .ok (s7, _) => .ok s7

/-- main.ts lines 101-127 (`openTrove`): `amt` is `_LQDAmt`, `val` is the
attached collateral deposit.  Assertions in source order, then the
mutation sequence. -/
def openTrove (s : State) (usr : AccountId) (amt val : Nat) : ERes State :=
  let ICR := _computeICR val amt s.price
  if ¬ amt > 0 then .error (ERR_AMT_BELOW_ZERO, s)
  else if ¬ ICR ≥ MCR then .error (ERR_ICR_BELOW_MCR, s)
  else if _checkRecoveryMode s = false ∧ ¬ _getNewTCRFromTroveChange s val 1 amt 1 ≥ CCR then
    .error (ERR_CCR_BELOW_TCR, s)
  else if _checkRecoveryMode s = true ∧ ¬ ICR > _getTCR s then
    .error (ERR_NEW_ICR_UNDER_TCR, s)
  else openTroveMutations s usr amt val (_calculateFee s amt)

/-- main.ts lines 129-143 (`closeTrove`). -/
def closeTrove (s : State) (usr : AccountId) : ERes State :=
  if TroveMgr.getCDPStatus s usr ≠ 1 then .error (ERR_CDP_INACTIVE, s)
  else if _checkRecoveryMode s = true then .error (ERR_IN_RECOVERY, s)
  else
    match s.CDPs usr with
    | none => .error (ERR_KEY_NOT_FOUND, s)
    | some cdp =>
      match TroveMgr.closeCDP s usr with
      | .error e => .error e
      | .ok s1 => .ok (PoolMgr.withdrawColl (PoolMgr.repayLQD s1 cdp.debt) cdp.coll)

/-- main.ts lines 190-210 (`addCollat`): re-opens a non-existent or
closed record by flipping the status, then updates collateral, stake and
pool, and finally calls `addOwnerToArray` on the first deposit. -/
def addCollat (s : State) (usr : AccountId) (val : Nat) : ERes State :=
  let status := TroveMgr.getCDPStatus s usr
  let s0 := if status = 0 ∨ status = 2 then TroveMgr.setCDPStatus s usr 1 else s
  match TroveMgr.increaseCDPColl s0 usr val with
  | .error e => .error e
  | .ok (s1, _) =>
    match TroveMgr.updateStakeAndTotalStakes s1 usr (PoolMgr.getTotalNEAR s1) with
    | .error e => .error e
    | .ok (s2, _) =>
      let s3 := PoolMgr.addColl s2 val
      if status = 0 ∨ status = 2 then
        match TroveMgr.addCDPOwnerToArray s3 usr with
        | .error e => .error e
        | .ok (s4, _) => .ok s4
      else .ok s3

/-- main.ts lines 263-275 (public `repayLQD`): requires an active Trove,
checks `amount <= debt` (`_requireLQDRepaymentAllowed`), then
`TroveMgr.burnDebt` (which itself asserts `amount < debt`) and the
Active Pool debt decrease. -/
def repayLQD (s : State) (usr : AccountId) (amt : Nat) : ERes State :=
  if TroveMgr.getCDPStatus s usr ≠ 1 then .error (ERR_CDP_INACTIVE, s)
  else
    match s.CDPs usr with
    | none => .error (ERR_KEY_NOT_FOUND, s)
    | some cdp =>
      if ¬ amt ≤ cdp.debt then .error (ERR_REPAY_OVER, s)
      else
        match TroveMgr.burnDebt s usr amt with
        | .error e => .error e
        | .ok (s1, _) => .ok (PoolMgr.repayLQD s1 amt)

/-- main.ts lines 278-283 (`provideToSP`). -/
def provideToSP (s : State) (usr : AccountId) (amt : Nat) : State :=
  PoolMgr.depositStableLQD s usr amt

/-- main.ts lines 286-293 (`withdrawFromSP`), wrapped with the host's
transactional rollback: an abort discards every mutation of the call and
surfaces only the error tag. -/
def withdrawFromSP (s : State) (usr : AccountId) (amt : Nat) : Except String State :=
  match PoolMgr.withdrawStableLQD s usr amt with
  | .error (e, _) => .error e
  | .ok s' => .ok s'

/-- ICR lookup for the redemption scan's `currentUser` variable, which
the source declares without initializing (`var currentUser: AccountId`):
the unassigned value is `none`, and `getCurrentICR` on it aborts just as
`CDPs.getSome` does for an account with no record. -/
def getCurrentICRopt (s : State) (cur : Option AccountId) (price : Nat) : Option Nat :=
  match cur with
  | none => none
  | some a =>
    match s.CDPs a with
    | none => none
    | some cdp => some (_computeICR cdp.coll cdp.debt price)

/-- The `for` loop of main.ts lines 300-317, one call per iteration `i`.
`fuel` only bounds the recursion; each iteration consumes one unit and
the loop runs at most `CDPOwners.length` iterations (the list never
grows during redemption), so calling with `fuel = s.CDPOwners.length`
never exhausts it.  Note the source tests
`troveMgr.getCurrentICR(currentUser, price)` BEFORE `currentUser` is
assigned from `TroveOwners[i]`.  (main.ts also passes arguments to
`redeemCollateralFrom` in a different order than the model.ts signature
declares; the embedding uses the model.ts parameter meaning.) -/
def redeemLoop (s : State) (cur : Option AccountId) (remaining i fuel : Nat) : ERes (State × Nat) :=
  match fuel with
  | 0 => .ok (s, remaining)
  | Nat.succ fuel₁ =>
    if i < s.CDPOwners.length then
      if remaining = 0 then .ok (s, remaining)
      else
        match getCurrentICRopt s cur s.price with
        | none => .error (ERR_KEY_NOT_FOUND, s)
        | some icr =>
          if icr < MCR then redeemLoop s cur remaining (i + 1) fuel₁
          else
            match s.CDPOwners.get? i with
            | none => .ok (s, remaining)
            | some a =>
              match TroveMgr.redeemCollateralFromCDP s (PoolMgr.getActiveNEAR s)
                  (PoolMgr.getActiveLQD s) remaining s.price a with
              | .error e => .error e
              | .ok (s1, redeemedDebt, redeemedColl) =>
                let remaining₁ := usub remaining redeemedDebt
                let s2 := PoolMgr.redeemCollateral s1 redeemedDebt redeemedColl
                redeemLoop s2 (some a) remaining₁ (i + 1) fuel₁
    else .ok (s, remaining)

/-- main.ts lines 295-319 (`redeemCollateral`): run the scan, then assert
that the full requested amount was redeemed. -/
def redeemCollateral (s : State) (amt : Nat) : ERes State :=
  match redeemLoop s none amt 0 s.CDPOwners.length with
  | .error e => .error e
  | .ok (s1, remaining) =>
    if remaining = 0 then .ok s1 else .error (ERR_REDEEM_OVER, s1)

/-- main.ts lines 505-547 (`_redistributeDebtAndColl`). -/
def _redistributeDebtAndColl (s : State) (debt coll : Nat) : State :=
  if debt = 0 then s
  else
    let LQDInPool := PoolMgr.getStableLQD s
    if LQDInPool > 0 then
      let s1 : State := { s with stablePool := { s.stablePool with LQD := uadd s.stablePool.LQD debt } }
      let s2 : State := { s1 with stablePool := { s1.stablePool with NEAR := uadd s1.stablePool.NEAR coll } }
      let s3 : State := { s2 with activePool := { s2.activePool with LQD := usub s2.activePool.LQD debt } }
      let s4 : State := { s3 with activePool := { s3.activePool with NEAR := usub s3.activePool.NEAR coll } }
      let debtToOffset := min debt LQDInPool
      let collToAdd := udiv (umul coll debtToOffset) debt
      let s5 : State := { s4 with stablePool := { s4.stablePool with LQD := usub s4.stablePool.LQD debtToOffset } }
      let s6 := PoolMgr.repayLQD s5 debtToOffset
      let s7 : State := { s6 with activePool := { s6.activePool with NEAR := usub s6.activePool.NEAR collToAdd } }
      let s8 : State := { s7 with stablePool := { s7.stablePool with NEAR := uadd s7.stablePool.NEAR collToAdd } }
      let debtRemainder := usub debt debtToOffset
      let collRemainder := usub coll collToAdd
      let s9 : State := { s8 with activePool := { s8.activePool with LQD := usub s8.activePool.LQD debtRemainder } }
      { s9 with activePool := { s9.activePool with NEAR := usub s9.activePool.NEAR collRemainder } }
    else
      let s9 : State := { s with activePool := { s.activePool with LQD := usub s.activePool.LQD debt } }
      { s9 with activePool := { s9.activePool with NEAR := usub s9.activePool.NEAR coll } }

/-- main.ts lines 419-434 (`_liquidateNormalMode`): early return with the
default-zero `LiquidationValues` when `ICR >= MCR` or at most one Trove
remains. -/
def _liquidateNormalMode (s : State) (u : AccountId) (ICR stableLQD : Nat) :
    ERes (State × LiquidationValues) :=
  if ICR ≥ MCR ∨ s.CDPOwners.length ≤ 1 then .ok (s, LiquidationValues.init)
  else
    match s.CDPs u with
    | none => .error (ERR_KEY_NOT_FOUND, s)
    | some cdp =>
      match TroveMgr.removeStake s u with
      | .error e => .error e
      | .ok s1 =>
        let V := _getLiquidationVals cdp.debt cdp.coll stableLQD
        (TroveMgr.closeCDP s1 u).map fun s2 => (s2, V)

/-- main.ts lines 436-503 (`_liquidateRecoveryMode`): early return when
at most one Trove remains, then the three ICR bands.  The local
re-assignments of `debt` after the partial offset only feed the emitted
event and are not modelled. -/
def _liquidateRecoveryMode (s : State) (u : AccountId) (ICR stableLQD : Nat) :
    ERes (State × LiquidationValues) :=
  if s.CDPOwners.length ≤ 1 then .ok (s, LiquidationValues.init)
  else
    match s.CDPs u with
    | none => .error (ERR_KEY_NOT_FOUND, s)
    | some cdp =>
      if ICR ≤ PCT then
        match TroveMgr.removeStake s u with
        | .error e => .error e
        | .ok s1 =>
          let V : LiquidationValues :=
            { debtToOffset := 0, collToSendToSP := 0
              debtToRedistribute := cdp.debt, collToRedistribute := cdp.coll }
          (TroveMgr.closeCDP s1 u).map fun s2 => (s2, V)
      else if ICR > PCT ∧ ICR < MCR then
        match TroveMgr.removeStake s u with
        | .error e => .error e
        | .ok s1 =>
          let V := _getLiquidationVals cdp.debt cdp.coll stableLQD
          (TroveMgr.closeCDP s1 u).map fun s2 => (s2, V)
      else if ICR ≥ MCR ∧ ICR < CCR then
        if stableLQD = 0 then .ok (s, LiquidationValues.init)
        else
          match TroveMgr.removeStake s u with
          | .error e => .error e
          | .ok s1 =>
            if cdp.debt > stableLQD then
              let frac := udiv (umul stableLQD cdp.coll) cdp.debt
              let V : LiquidationValues :=
                { debtToOffset := stableLQD, collToSendToSP := frac
                  debtToRedistribute := 0, collToRedistribute := 0 }
              match TroveMgr.burnDebt s1 u stableLQD with
              | .error e => .error e
              | .ok (s2, _) =>
                match TroveMgr.decreaseCDPColl s2 u frac with
                | .error e => .error e
                | .ok (s3, _) => (TroveMgr.closeCDP s3 u).map fun s4 => (s4, V)
            else
              let V : LiquidationValues :=
                { debtToOffset := cdp.debt, collToSendToSP := cdp.coll
                  debtToRedistribute := 0, collToRedistribute := 0 }
              (TroveMgr.closeCDP s1 u).map fun s2 => (s2, V)
      else .ok (s, LiquidationValues.init)

/-- main.ts lines 321-339 (`liquidate`): mode selection, the per-mode
computation, then `PoolMgr.offset` and `_redistributeDebtAndColl`.  The
computed `LiquidationValues` are returned alongside the final state. -/
def liquidate (s : State) (u : AccountId) : ERes (State × LiquidationValues) :=
  if TroveMgr.getCDPStatus s u ≠ 1 then .error (ERR_CDP_INACTIVE, s)
  else
    match TroveMgr.getCurrentICR s u s.price with
    | .error e => .error e
    | .ok ICR =>
      let stableLQD := PoolMgr.getStableLQD s
      match (if _checkRecoveryMode s = false then _liquidateNormalMode s u ICR stableLQD
             else _liquidateRecoveryMode s u ICR stableLQD) with
      | .error e => .error e
      | .ok (s1, V) =>
        let s2 := PoolMgr.offset s1 V.debtToOffset V.collToSendToSP
        .ok (_redistributeDebtAndColl s2 V.debtToRedistribute V.collToRedistribute, V)

/-! ### Stability-pool product/sum state (src/unnamed/part_005) -/

/-- The `PoolMgr` product/scale/epoch fields and the
`epochToScaleToSum` map of part_005 (the composite string key
"epoch,scale" is the pair of its two decimal components, which the
string encodes injectively). -/
structure SPState where
  product : Nat
  scale : Nat
  epoch : Nat
  epochToScaleToSum : Nat × Nat → Option Nat

/-- part_005 lines 407-438 (`updateRewardSumAndProduct`); the first
parameter is the collateral gain per unit staked, the second the debt
loss per unit staked.  `epochToScaleToSum.getSome` aborts when the
current (epoch, scale) key has no entry. -/
def updateRewardSumAndProduct (sp : SPState) (_NEARgain _LQDloss : Nat) : Except String SPState :=
  let newProductFactor := if _LQDloss ≥ PCT then 0 else usub PCT _LQDloss
  let marginalGain := umul _NEARgain sp.product
  match sp.epochToScaleToSum (sp.epoch, sp.scale) with
  | none => .error ERR_KEY_NOT_FOUND
  | some oldESS =>
    let sp1 : SPState :=
      { sp with epochToScaleToSum := fun k =>
          if k = (sp.epoch, sp.scale) then some (uadd oldESS marginalGain)
          else sp.epochToScaleToSum k }
    if newProductFactor = 0 then
      .ok { sp1 with epoch := uadd sp1.epoch 1, scale := 0, product := PCT }
    else
      let newProduct := umul sp1.product newProductFactor
      if newProduct < PCT then
        .ok { sp1 with product := newProduct, scale := uadd sp1.scale 1 }
      else
        .ok { sp1 with product := udiv newProduct PCT }

/-! ### Result projections used by concrete evaluations -/

/-- The abort message of an aborted computation. -/
def errOf {α : Type} : ERes α → Option String
  | .error (e, _) => some e
  | .ok _ => none

/-- The state reached when the abort fired. -/
def errState {α : Type} : ERes α → Option State
  | .error (_, t) => some t
  | .ok _ => none

/-- The Trove debt recorded for `u` after a successful stateful call. -/
def troveDebtAfter (r : ERes State) (u : AccountId) : Option Nat :=
  match r with
  | .ok t => (t.CDPs u).map CDP.debt
  | .error _ => none

/-- The scale after a successful stability-pool update. -/
def spScaleOf : Except String SPState → Option Nat
  | .ok sp => some sp.scale
  | .error _ => none

/-- The product after a successful stability-pool update. -/
def spProductOf : Except String SPState → Option Nat
  | .ok sp => some sp.product
  | .error _ => none

/-! ### Concrete states used by witnesses and counterexamples -/

/-- A freshly deployed contract: no Troves, empty pools, price 1. -/
def State.empty : State :=
  { CDPs := fun _ => none
    CDPOwners := []
    rewardSnapshots := fun _ => none
    stableLQDeposits := fun _ => none
    totalStakes := 0
    totalFees := 0
    activePool := { NEAR := 0, LQD := 0 }
    stablePool := { NEAR := 0, LQD := 0 }
    price := 1 }

/-- Fresh contract with the oracle price set to 200 (18-decimal). -/
def stateC3 : State := { State.empty with price := 200 * PCT }

def cdpC4 : CDP := { debt := 50, coll := 100, stake := 100, status := .active, arrayIndex := 0 }

/-- A state whose owner list holds exactly one active Trove. -/
def stateC4 : State :=
  { State.empty with
    CDPs := fun a => if a = "alice" then some cdpC4 else none
    CDPOwners := ["alice"]
    rewardSnapshots := fun a => if a = "alice" then some { coll := 0, debt := 0 } else none
    totalStakes := 100
    activePool := { NEAR := 100, LQD := 50 }
    price := PCT }

/-- Stability Pool holding 100 debt token, depositor with balance 5. -/
def stateC6 : State :=
  { State.empty with
    stableLQDeposits := fun a => if a = "alice" then some 5 else none
    stablePool := { NEAR := 0, LQD := 100 } }

/-- Stability Pool holding 40 debt token, depositor with balance 5. -/
def stateC6w : State :=
  { State.empty with
    stableLQDeposits := fun a => if a = "bob" then some 5 else none
    stablePool := { NEAR := 0, LQD := 40 } }

def cdpC7 : CDP := { debt := 5, coll := 10, stake := 10, status := .active, arrayIndex := 0 }

/-- A state with one active Trove of debt 5. -/
def stateC7 : State :=
  { State.empty with
    CDPs := fun a => if a = "alice" then some cdpC7 else none
    CDPOwners := ["alice"]
    activePool := { NEAR := 10, LQD := 5 } }

def cdpC8 : CDP := { debt := 100, coll := 300, stake := 300, status := .active, arrayIndex := 0 }

/-- A state with one active Trove whose ICR is far above MCR — a Trove
the specification expects `redeemCollateral` to redeem from. -/
def stateC8 : State :=
  { State.empty with
    CDPs := fun a => if a = "alice" then some cdpC8 else none
    CDPOwners := ["alice"]
    activePool := { NEAR := 300, LQD := 100 }
    price := PCT }

def cdpC10 : CDP := { debt := 0, coll := 0, stake := 0, status := .closed, arrayIndex := 0 }

/-- A state retaining a closed Trove record for "carol". -/
def stateC10 : State :=
  { State.empty with CDPs := fun a => if a = "carol" then some cdpC10 else none }

/-- Stability-pool state at epoch 0, scale 0, product ONE, with the
current sum entry present. -/
def spC5cex : SPState :=
  { product := PCT, scale := 0, epoch := 0
    epochToScaleToSum := fun k => if k = (0, 0) then some 0 else none }

/-- Stability-pool state at epoch 2, scale 4, product ONE, with the
current sum entry present. -/
def spC5w : SPState :=
  { product := PCT, scale := 4, epoch := 2
    epochToScaleToSum := fun k => if k = (2, 4) then some 7 else none }

end LiqpaiD

namespace LiqpaiD

/-- C1: the claim predicts, for a normal-mode liquidation against a pool
holding p = 100 of the debt token and a Trove with debt d = 60 and
collateral c = 4, that `debtToOffset = min(60, 100) = 60`, all collateral
goes to the pool and nothing is redistributed.  The source's `min`
returns the larger argument, so `_getLiquidationVals` offsets 100,
"sends" more collateral than the Trove has, and the two `u128.sub`
remainders wrap around 2^128. -/
theorem C1_liquidationVals_eval :
    min 60 100 = 100 ∧
    (_getLiquidationVals 60 4 100).debtToOffset = 100 ∧
    (_getLiquidationVals 60 4 100).collToSendToSP = 6 ∧
    (_getLiquidationVals 60 4 100).debtToRedistribute = U128 - 40 ∧
    (_getLiquidationVals 60 4 100).collToRedistribute = U128 - 2 := by
  refine ⟨rfl, ?_, ?_, ?_, ?_⟩ <;> decide

/-- C2 counterexample: the claim says `_computeICR` returns the 18-decimal
scale factor ONE (= `PCT`) for an empty Trove, and that the intermediate
multiplication loses no precision; the code returns the integer 1 for an
empty Trove, and the product wraps at 128 bits. -/
theorem C2_counterexample :
    _computeICR 0 0 5 ≠ PCT ∧
    _computeICR (2 ^ 64) 1 (2 ^ 64) ≠ 2 ^ 64 * 2 ^ 64 / 1 := by
  constructor <;> decide

/-- C2 (amended): `_computeICR c d p` returns the integer 1 (`u128.One`,
not the 18-decimal ONE) when `c = 0` and `d = 0`; returns the maximum
u128 value when `d = 0` and `c > 0`; and otherwise returns
`((c * p) mod 2^128) / d` — truncating division over the wrapping
128-bit product. -/
theorem C2_computeICR_cases (c d p : Nat) :
    (c = 0 ∧ d = 0 → _computeICR c d p = 1) ∧
    (d = 0 → 0 < c → _computeICR c d p = u128Max) ∧
    (0 < d → _computeICR c d p = c * p % U128 / d) := by
  refine ⟨fun h => ?_, fun hd hc => ?_, fun hd => ?_⟩
  · simp [_computeICR, h.1, h.2]
  · simp [_computeICR, hd, Nat.pos_iff_ne_zero.mp hc]
  · simp [_computeICR, hd, Nat.pos_iff_ne_zero.mp hd, umul, udiv]

/-- C2 witness: the amended theorem applied at `c = 2, d = 0, p = 3`. -/
theorem C2_computeICR_cases_witness : _computeICR 2 0 3 = u128Max :=
  (C2_computeICR_cases 2 0 3).2.1 rfl (by decide)

/-! ### Shared helper lemmas -/

theorem usub_eq_sub {a b : Nat} (hba : b ≤ a) (ha : a < U128) : usub a b = a - b := by
  have hb : b % U128 = b := Nat.mod_eq_of_lt (lt_of_le_of_lt hba ha)
  unfold usub
  rw [hb]
  have hsplit : a + U128 - b = U128 + (a - b) := by omega
  rw [hsplit, Nat.add_mod_left]
  exact Nat.mod_eq_of_lt (by omega)

theorem setCDP_self (s : State) (u : AccountId) (c : CDP) :
    (setCDP s u c).CDPs u = some c := by
  simp [setCDP]

theorem setCDPStatus_contains (s : State) (u : AccountId) (n : Nat) :
    ∃ c, (TroveMgr.setCDPStatus s u n).CDPs u = some c := by
  simp [TroveMgr.setCDPStatus, setCDP]

theorem addOwner_err (s : State) (u : AccountId) (h : (s.CDPs u).isSome) :
    TroveMgr.addCDPOwnerToArray s u = .error (ERR_USER_EXISTS, s) := by
  simp [TroveMgr.addCDPOwnerToArray, h]

theorem openTroveMutations_aborts (s : State) (usr : AccountId) (amt val fee : Nat) :
    ∃ e ps, openTroveMutations s usr amt val fee = Except.error (e, ps) := by
  obtain ⟨c1, hc1⟩ := setCDPStatus_contains s usr 1
  simp [openTroveMutations, TroveMgr.increaseCDPColl, TroveMgr.mintDebt,
        TroveMgr.addCDPOwnerToArray, setCDP, hc1]

/-- C3: the claim assumes `openTrove(D, C)` can be accepted and then
round-tripped by `closeTrove()`.  In the source, no call to `openTrove`
is ever accepted: `setStatus(usr, 1)` creates the CDP record, after
which `addOwnerToArray` asserts that no record exists and aborts with
the already-exists error.  The second conjunct evaluates the concrete
spec scenario (fresh contract, price 200, collateral 1.0, debt 150, all
of the claim's preconditions satisfiable) and observes the abort. -/
theorem C3_openTrove_never_succeeds :
    (∀ s usr amt val, ∃ e ps, openTrove s usr amt val = Except.error (e, ps)) ∧
    errOf (openTrove stateC3 ("alice") (150 * PCT) PCT) = some ERR_USER_EXISTS := by
  constructor
  · intro s usr amt val
    simp only [openTrove]
    split
    · exact ⟨_, _, rfl⟩
    split
    · exact ⟨_, _, rfl⟩
    split
    · exact ⟨_, _, rfl⟩
    split
    · exact ⟨_, _, rfl⟩
    exact openTroveMutations_aborts s usr amt val _
  · decide

/-- C9: `getTotalNEAR` adds the Active Pool collateral to itself — it
equals twice the Active Pool balance (mod 2^128) and is invariant under
any change of the Stability Pool (this `PoolMgr` has no default pool at
all), so neither Stability nor Default collateral is ever included. -/
theorem C9_getTotalNEAR_doubles_active (s : State) :
    PoolMgr.getTotalNEAR s = 2 * s.activePool.NEAR % U128 ∧
    ∀ p, PoolMgr.getTotalNEAR { s with stablePool := p } = PoolMgr.getTotalNEAR s := by
  constructor
  · simp [PoolMgr.getTotalNEAR, PoolMgr.getActiveNEAR, uadd, Nat.two_mul]
  · intro p
    rfl

/-- C10: for an account whose Trove record is retained with status
closed (or nonExistent), the re-open path through `addCollat` always
aborts with the already-exists error, because `addCDPOwnerToArray`
asserts that the account has no CDP record at all — yet `setStatus` has
just (re)stored one. -/
theorem C10_addCollat_reopen_aborts (s : State) (u : AccountId) (cdp : CDP) (val : Nat)
    (hc : s.CDPs u = some cdp)
    (hst : cdp.status = Status.closed ∨ cdp.status = Status.nonExistent) :
    errOf (addCollat s u val) = some ERR_USER_EXISTS := by
  rcases hst with h | h <;>
  · simp [addCollat, TroveMgr.getCDPStatus, hc, h, Status.toNum, TroveMgr.setCDPStatus,
          TroveMgr.increaseCDPColl, TroveMgr.updateStakeAndTotalStakes,
          TroveMgr.addCDPOwnerToArray, PoolMgr.addColl, setCDP, errOf]

/-- C10 witness: `addCollat` on the retained closed record of "carol". -/
theorem C10_witness : errOf (addCollat stateC10 ("carol") 25) = some ERR_USER_EXISTS :=
  C10_addCollat_reopen_aborts stateC10 ("carol") cdpC10 25 rfl (Or.inl rfl)

/-- C4: calling `liquidate` on the sole remaining active Trove — in
normal mode via the `TroveOwners.length <= 1` early return, in recovery
mode via the identical guard — returns the state completely unchanged
(all Troves, the owner list, `totalStakes`, and every pool balance) and
the all-zero `LiquidationValues`; the subsequent `offset(0, 0)` and
redistribution of zero are no-ops. -/
theorem C4_sole_trove_liquidation (s : State) (u : AccountId) (cdp : CDP)
    (hc : s.CDPs u = some cdp) (ha : cdp.status = Status.active)
    (h1 : s.CDPOwners.length = 1) :
    liquidate s u = .ok (s, LiquidationValues.init) := by
  have hstat : TroveMgr.getCDPStatus s u = 1 := by
    simp [TroveMgr.getCDPStatus, hc, ha, Status.toNum]
  have hlen : s.CDPOwners.length ≤ 1 := by omega
  have hnorm : _liquidateNormalMode s u (_computeICR cdp.coll cdp.debt s.price)
      (PoolMgr.getStableLQD s) = .ok (s, LiquidationValues.init) := by
    simp [_liquidateNormalMode, hlen]
  have hrec : _liquidateRecoveryMode s u (_computeICR cdp.coll cdp.debt s.price)
      (PoolMgr.getStableLQD s) = .ok (s, LiquidationValues.init) := by
    simp [_liquidateRecoveryMode, hlen]
  simp [liquidate, hstat, TroveMgr.getCurrentICR, hc, hnorm, hrec,
        PoolMgr.offset, _redistributeDebtAndColl, LiquidationValues.init]

/-- C4 witness: the theorem applied to a state holding exactly one
active Trove. -/
theorem C4_witness : liquidate stateC4 ("alice") = .ok (stateC4, LiquidationValues.init) :=
  C4_sole_trove_liquidation stateC4 ("alice") cdpC4 rfl rfl rfl

/-- C7: for an active Trove with debt `d`, the public repay operation
fails with the repayment-exceeds-debt error if and only if the amount
`a` satisfies `a >= d` (amounts strictly above `d` are caught by
`_requireLQDRepaymentAllowed`; `a = d` passes that check but trips the
strict `amount < debt` assert inside `burnDebt`, with the same error
tag); for `a < d` the Trove's recorded debt becomes `d - a`. -/
theorem C7_repay_iff (s : State) (u : AccountId) (cdp : CDP) (a : Nat)
    (hc : s.CDPs u = some cdp) (ha : cdp.status = Status.active)
    (hd : cdp.debt < U128) :
    (repayLQD s u a = .error (ERR_REPAY_OVER, s) ↔ cdp.debt ≤ a) ∧
    (a < cdp.debt → troveDebtAfter (repayLQD s u a) u = some (cdp.debt - a)) := by
  have hstat : TroveMgr.getCDPStatus s u = 1 := by
    simp [TroveMgr.getCDPStatus, hc, ha, Status.toNum]
  by_cases hle : a ≤ cdp.debt
  · by_cases hlt : a < cdp.debt
    · have hrun : repayLQD s u a =
          .ok (PoolMgr.repayLQD (setCDP s u { cdp with debt := usub cdp.debt a }) a) := by
        simp [repayLQD, hstat, hc, hle, TroveMgr.burnDebt, hlt]
      constructor
      · rw [hrun]
        constructor
        · intro hcontra
          exact absurd hcontra (by simp)
        · intro hcontra
          exact absurd hcontra (by omega)
      · intro _
        rw [hrun]
        simp [troveDebtAfter, PoolMgr.repayLQD, setCDP,
              usub_eq_sub (Nat.le_of_lt hlt) hd]
    · have heq : a = cdp.debt := by omega
      have hrun : repayLQD s u a = .error (ERR_REPAY_OVER, s) := by
        simp [repayLQD, hstat, hc, hle, TroveMgr.burnDebt, hlt]
      exact ⟨by rw [hrun]; simp [heq], fun hcontra => absurd hcontra hlt⟩
  · have hrun : repayLQD s u a = .error (ERR_REPAY_OVER, s) := by
      simp [repayLQD, hstat, hc, hle]
    exact ⟨by rw [hrun]; simp; omega, fun hcontra => absurd hcontra (by omega)⟩

/-- C7 witness: repaying 3 against a debt of 5 leaves debt 2. -/
theorem C7_witness : troveDebtAfter (repayLQD stateC7 ("alice") 3) ("alice") = some 2 :=
  (C7_repay_iff stateC7 ("alice") cdpC7 3 rfl rfl (by decide)).2 (by decide)

/-- C6 counterexample: the claim says every validation failure is raised
before any state mutation.  `withdrawStableLQD` on a depositor with
balance 5 withdrawing 10 aborts with the insufficient-deposit error, yet
the state carried at the abort already has the Stability Pool debt
balance decreased from 100 to 90. -/
theorem C6_counterexample :
    errOf (PoolMgr.withdrawStableLQD stateC6 ("alice") 10) = some ERR_WITHDRAW_TOO_MUCH ∧
    (errState (PoolMgr.withdrawStableLQD stateC6 ("alice") 10)).map
      (fun t => t.stablePool.LQD) = some 90 ∧
    stateC6.stablePool.LQD = 100 := by
  refine ⟨?_, ?_, rfl⟩ <;> decide

/-- C6 (amended): aborted operations persist nothing only because the
host rolls the transaction back, not because validation precedes
mutation: in `withdrawFromSP` the insufficient-deposit check fires after
the Stability Pool debt balance has been decreased, and that decrease is
the only mutation preceding the failure; the rolled-back public call
surfaces just the error. -/
theorem C6_withdraw_mutates_before_check (s : State) (u : AccountId) (amt dep : Nat)
    (hdep : s.stableLQDeposits u = some dep) (hlt : dep < amt) :
    PoolMgr.withdrawStableLQD s u amt =
      .error (ERR_WITHDRAW_TOO_MUCH,
        { s with stablePool := { s.stablePool with LQD := usub s.stablePool.LQD amt } }) ∧
    withdrawFromSP s u amt = .error ERR_WITHDRAW_TOO_MUCH := by
  have h1 : PoolMgr.withdrawStableLQD s u amt =
      .error (ERR_WITHDRAW_TOO_MUCH,
        { s with stablePool := { s.stablePool with LQD := usub s.stablePool.LQD amt } }) := by
    simp [PoolMgr.withdrawStableLQD, hdep, Nat.not_le.mpr hlt]
  exact ⟨h1, by simp [withdrawFromSP, h1]⟩

/-- C6 witness: the amended theorem at a depositor with balance 5
withdrawing 10 from a pool holding 40. -/
theorem C6_witness :
    PoolMgr.withdrawStableLQD stateC6w ("bob") 10 =
      .error (ERR_WITHDRAW_TOO_MUCH,
        { stateC6w with stablePool :=
          { stateC6w.stablePool with LQD := usub stateC6w.stablePool.LQD 10 } }) :=
  (C6_withdraw_mutates_before_check stateC6w ("bob") 10 5 rfl (by decide)).1

/-- C5 counterexample: with product P = ONE and loss l = ONE/2, the
claim's `candidateP = P * (ONE - l) / ONE = ONE/2` is below ONE, so the
claim demands the scale be incremented; the code compares the undivided
product `P * (ONE - l)` against ONE instead, keeps the scale unchanged,
and stores `candidateP` only in this branch. -/
theorem C5_counterexample :
    spScaleOf (updateRewardSumAndProduct spC5cex 0 (5 * 10 ^ 17)) = some spC5cex.scale ∧
    spProductOf (updateRewardSumAndProduct spC5cex 0 (5 * 10 ^ 17)) = some (5 * 10 ^ 17) ∧
    udiv (umul spC5cex.product (usub PCT (5 * 10 ^ 17))) PCT < PCT := by
  refine ⟨?_, ?_, ?_⟩ <;> decide

/-- C5 (amended): on an offset with gain g and loss l at product P,
epoch e, scale s (and the sum entry for (e, s) present): the sum at
(e, s) increases by g weighted by the pre-update product; if l >= ONE
then epoch = e + 1, scale = 0 and P = ONE; otherwise, with
raw = P * (ONE - l) (the UNDIVIDED wrapping product), if raw < ONE the
new product is raw itself (carrying the extra ONE factor of precision)
and scale = s + 1, while if raw >= ONE the new product is raw / ONE and
the scale is unchanged. -/
theorem C5_updateRewardSumAndProduct (sp : SPState) (g l oldESS : Nat)
    (h : sp.epochToScaleToSum (sp.epoch, sp.scale) = some oldESS) :
    ∃ sp₁, updateRewardSumAndProduct sp g l = .ok sp₁ ∧
      sp₁.epochToScaleToSum (sp.epoch, sp.scale) = some (uadd oldESS (umul g sp.product)) ∧
      (l ≥ PCT → sp₁.epoch = uadd sp.epoch 1 ∧ sp₁.scale = 0 ∧ sp₁.product = PCT) ∧
      (l < PCT → umul sp.product (usub PCT l) < PCT →
        sp₁.product = umul sp.product (usub PCT l) ∧
        sp₁.scale = uadd sp.scale 1 ∧ sp₁.epoch = sp.epoch) ∧
      (l < PCT → ¬ umul sp.product (usub PCT l) < PCT →
        sp₁.product = udiv (umul sp.product (usub PCT l)) PCT ∧
        sp₁.scale = sp.scale ∧ sp₁.epoch = sp.epoch) := by
  have hPCT : PCT < U128 := by decide
  by_cases hl : l ≥ PCT
  · refine ⟨{ product := PCT, scale := 0, epoch := uadd sp.epoch 1
              epochToScaleToSum := fun k => if k = (sp.epoch, sp.scale)
                then some (uadd oldESS (umul g sp.product))
                else sp.epochToScaleToSum k }, ?_, ?_, ?_, ?_, ?_⟩
    · simp [updateRewardSumAndProduct, h, hl]
    · simp
    · intro _
      exact ⟨rfl, rfl, rfl⟩
    · intro hcontra
      exact absurd hl (by omega)
    · intro hcontra
      exact absurd hl (by omega)
  · have hl2 : l < PCT := by omega
    have hsub : usub PCT l = PCT - l := usub_eq_sub (Nat.le_of_lt hl2) hPCT
    have hfne : ¬ usub PCT l = 0 := by omega
    by_cases hnp : umul sp.product (usub PCT l) < PCT
    · refine ⟨{ product := umul sp.product (usub PCT l), scale := uadd sp.scale 1
                epoch := sp.epoch
                epochToScaleToSum := fun k => if k = (sp.epoch, sp.scale)
                  then some (uadd oldESS (umul g sp.product))
                  else sp.epochToScaleToSum k }, ?_, ?_, ?_, ?_, ?_⟩
      · simp [updateRewardSumAndProduct, h, hl, hfne, hnp]
      · simp
      · intro hcontra
        exact absurd hcontra hl
      · intro _ _
        exact ⟨rfl, rfl, rfl⟩
      · intro _ hcontra
        exact absurd hnp hcontra
    · refine ⟨{ product := udiv (umul sp.product (usub PCT l)) PCT, scale := sp.scale
                epoch := sp.epoch
                epochToScaleToSum := fun k => if k = (sp.epoch, sp.scale)
                  then some (uadd oldESS (umul g sp.product))
                  else sp.epochToScaleToSum k }, ?_, ?_, ?_, ?_, ?_⟩
      · simp [updateRewardSumAndProduct, h, hl, hfne, hnp]
      · simp
      · intro hcontra
        exact absurd hcontra hl
      · intro _ hcontra
        exact absurd hcontra hnp
      · intro _ _
        exact ⟨rfl, rfl, rfl⟩

/-- C5 witness: the amended theorem at product ONE, epoch 2, scale 4,
gain 3, loss ONE/2: the raw product is at least ONE, so the scale stays
at 4. -/
theorem C5_witness :
    spScaleOf (updateRewardSumAndProduct spC5w 3 (5 * 10 ^ 17)) = some 4 := by
  obtain ⟨sp₁, h1, h2, h3, h4, h5⟩ :=
    C5_updateRewardSumAndProduct spC5w 3 (5 * 10 ^ 17) 7 rfl
  have h6 := h5 (by decide) (by decide)
  rw [h1]
  simp only [spScaleOf]
  rw [h6.2.1]
  rfl

/-- C8: the redemption scan tests
`troveMgr.getCurrentICR(currentUser, price)` before `currentUser` is
assigned from `TroveOwners[i]`, so the claimed skip of Troves with
ICR < MCR is never applied to the Trove being redeemed: on the first
iteration the unassigned `currentUser` has no CDP record and the whole
call aborts — here on a state whose single Trove has ICR far above MCR
and should, per the claim, simply be redeemed against. -/
theorem C8_redeem_checks_unassigned_user :
    errOf (redeemCollateral stateC8 50) = some ERR_KEY_NOT_FOUND ∧
    _computeICR cdpC8.coll cdpC8.debt stateC8.price ≥ MCR ∧
    stateC8.CDPs ("alice") = some cdpC8 := by
  refine ⟨?_, ?_, rfl⟩ <;> decide

end LiqpaiD
